import Mathlib

/-!
Verification of the load-generation and metrics-aggregation core of the
vafast-benchmarks repository (`universal-framework-tester.ts` and the
batch tester).  Latencies and times are modelled as rationals (the
source uses JS numbers; all the arithmetic involved is exact on the
inputs we reason about), machine events (HTTP responses, connection
errors, fired timeouts) are modelled explicitly, and promise rejection
is modelled by `Except`.
-/

namespace VafastBench

/-- One observed request outcome, as in the source's `LatencyRecord`
interface: elapsed wall-clock time and a success flag. -/
structure LatencyRecord where
  latency : ℚ
  success : Bool
deriving DecidableEq, Repr

/-- The network-level event that terminates one HTTP request in the
source: a response (with its status code) arriving after `elapsed` ms,
a connection error after `elapsed` ms, or the per-request timeout
firing after `elapsed` ms.  Exactly one of the three callbacks
(`res.on "end"`, `req.on "error"`, `req.on "timeout"`) resolves the
promise in `sendRequest` / `sendHealthCheck`. -/
inductive NetEvent where
  | response (status : Nat) (elapsed : ℚ)
  | connError (elapsed : ℚ)
  | timeout (elapsed : ℚ)
deriving DecidableEq, Repr

/-- The elapsed time at which the event fired (`performance.now() - startTime`
at the moment the corresponding callback runs). -/
def NetEvent.elapsed : NetEvent → ℚ
  | .response _ e => e
  | .connError e => e
  | .timeout e => e

/-- Per-request timeout for load-test requests (`timeout: 5000` in
`sendRequest`'s options), in milliseconds. -/
def loadRequestTimeoutMs : Nat := 5000

/-- Per-request timeout for health checks (`timeout: 2000` in
`sendHealthCheck`'s options), in milliseconds. -/
def healthCheckTimeoutMs : Nat := 2000

/-- `sendRequest` (universal-framework-tester.ts lines 300-345, identical
in the batch tester): the promise always resolves with a
`LatencyRecord`, never rejects.  A response is a success iff
`statusCode >= 200 && statusCode < 300`; a connection error or a fired
timeout resolves with `success: false` and the elapsed time. -/
def sendRequest : NetEvent → LatencyRecord
  | .response status elapsed =>
      { latency := elapsed, success := decide (200 ≤ status) && decide (status < 300) }
  | .connError elapsed => { latency := elapsed, success := false }
  | .timeout elapsed => { latency := elapsed, success := false }

/-- `sendHealthCheck` (universal-framework-tester.ts lines 252-295): same
shape as `sendRequest` but a response is a success iff
`statusCode >= 200 && statusCode < 500`. -/
def sendHealthCheck : NetEvent → LatencyRecord
  | .response status elapsed =>
      { latency := elapsed, success := decide (200 ≤ status) && decide (status < 500) }
  | .connError elapsed => { latency := elapsed, success := false }
  | .timeout elapsed => { latency := elapsed, success := false }

/-- Claim C7: a `LatencyRecord`'s success flag is true iff the response
status falls in the accepted range for the request kind: health checks
accept any status in [200,499], load-test requests require strict 2xx
([200,299]). -/
theorem latencyRecord_success_iff_status_in_range (status : Nat) (elapsed : ℚ) :
    ((sendHealthCheck (NetEvent.response status elapsed)).success = true ↔
      200 ≤ status ∧ status ≤ 499) ∧
    ((sendRequest (NetEvent.response status elapsed)).success = true ↔
      200 ≤ status ∧ status ≤ 299) := by
  constructor
  · simp [sendHealthCheck, Nat.lt_succ_iff]
  · simp [sendRequest, Nat.lt_succ_iff]

/-- Claim C6: the request driver is a total function from the
terminating network event to a `latency`/`success` record (in the
source: the promise is resolved in every callback and never rejected),
connection errors and fired timeouts yield `success = false` with the
elapsed time up to that point recorded, and the per-request timeout
configuration is 5000 ms for load requests and 2000 ms for health
checks. -/
theorem sendRequest_total_and_failure_records (ev : NetEvent) (e : ℚ) :
    (sendRequest ev = { latency := ev.elapsed, success := (sendRequest ev).success } ∧
     sendHealthCheck ev = { latency := ev.elapsed, success := (sendHealthCheck ev).success }) ∧
    sendRequest (NetEvent.connError e) = { latency := e, success := false } ∧
    sendRequest (NetEvent.timeout e) = { latency := e, success := false } ∧
    sendHealthCheck (NetEvent.connError e) = { latency := e, success := false } ∧
    sendHealthCheck (NetEvent.timeout e) = { latency := e, success := false } ∧
    loadRequestTimeoutMs = 5000 ∧ healthCheckTimeoutMs = 2000 := by
  refine ⟨⟨?_, ?_⟩, rfl, rfl, rfl, rfl, rfl, rfl⟩ <;>
    cases ev <;> rfl

/-! ## Load generation: folding request outcomes into counters -/

/-- One request outcome as seen by the load generator's batch
processing: either the request promise resolved with a record
(`sendRequest` never rejects), or — in the defensive `catch` path of
`processBatch` — awaiting it threw, which is counted as an error. -/
inductive Outcome where
  | ok (r : LatencyRecord)
  | threw
deriving DecidableEq, Repr

/-- Whether the outcome is a successfully answered request (a resolved
record with `success: true`). -/
def Outcome.isSuccess : Outcome → Bool
  | .ok r => r.success
  | .threw => false

/-- The running counters of `runPerformanceTest`
(universal-framework-tester.ts lines 367-370): `totalRequests`,
`successRequests`, `errorRequests` and the array of latencies of
successful requests. -/
structure RunCounters where
  totalRequests : Nat
  successRequests : Nat
  errorRequests : Nat
  latencies : List ℚ
deriving DecidableEq, Repr

/-- The body of `processBatch` (lines 374-384) for one result, together
with the per-promise `catch` fallback (lines 414-417): a successful
record bumps `totalRequests`/`successRequests` and pushes its latency;
a failed record or a thrown await bumps `totalRequests`/`errorRequests`
and records no latency. -/
def processOutcome (c : RunCounters) : Outcome → RunCounters
  | .ok r =>
      if r.success then
        { c with
          totalRequests := c.totalRequests + 1
          successRequests := c.successRequests + 1
          latencies := c.latencies ++ [r.latency] }
      else
        { c with
          totalRequests := c.totalRequests + 1
          errorRequests := c.errorRequests + 1 }
  | .threw =>
      { c with
        totalRequests := c.totalRequests + 1
        errorRequests := c.errorRequests + 1 }

/-- The counters after the whole run: every outcome of the run (in the
order its batch was awaited) folded into the zero-initialised counters. -/
def runCounters (outcomes : List Outcome) : RunCounters :=
  outcomes.foldl processOutcome ⟨0, 0, 0, []⟩

/-- Reference (spec-side) description of the latency buffer: the
latencies of the successful outcomes, in order. -/
def successLatencies (outcomes : List Outcome) : List ℚ :=
  outcomes.filterMap fun o =>
    match o with
    | .ok r => if r.success then some r.latency else none
    | .threw => none

/-! ## Metrics aggregation -/

/-- `latencies.sort((a, b) => a - b)`: the latency array sorted
ascending. -/
def sortLatencies (l : List ℚ) : List ℚ :=
  l.insertionSort (· ≤ ·)

/-- `Math.floor(latencies.length * 0.95)`: the nearest-rank p95 index.
`0.95 * len` is modelled exactly as `95 * len / 100` with `Nat` floor
division. -/
def p95Index (len : Nat) : Nat :=
  len * 95 / 100

/-- The record returned by `runPerformanceTest` (lines 481-488).  Note
that the source assigns the `successRequests` counter to the
`totalRequests` field of the returned record. -/
structure RunStats where
  totalRequests : Nat
  averageLatency : ℚ
  minLatency : ℚ
  maxLatency : ℚ
  p95Latency : ℚ
  errorRate : ℚ
deriving DecidableEq, Repr

/-- The tail of `runPerformanceTest`
(universal-framework-tester.ts lines 461-489, identical in
`BatchFrameworkTester` lines 288-315): if no successful latency was
recorded the whole test throws (`Except.error`); otherwise it sorts the
latency array ascending and computes average (sum / length), min
(index 0), max (index length-1), nearest-rank p95
(index `floor(length * 0.95)`) and the error rate
(`errorRequests / totalRequests * 100`, guarded by
`totalRequests > 0`), and returns `successRequests` in the
`totalRequests` field. -/
def aggregate (c : RunCounters) : Except String RunStats :=
  if c.latencies.length = 0 then
    .error "no successful requests"
  else
    let sorted := sortLatencies c.latencies
    let averageLatency := sorted.sum / (sorted.length : ℚ)
    let minLatency := sorted.getD 0 0
    let maxLatency := sorted.getD (sorted.length - 1) 0
    let p95Latency := sorted.getD (p95Index c.latencies.length) 0
    let errorRate :=
      if 0 < c.totalRequests then
        ((c.errorRequests : ℚ) / (c.totalRequests : ℚ)) * 100
      else 0
    .ok
      { totalRequests := c.successRequests
        averageLatency := averageLatency
        minLatency := minLatency
        maxLatency := maxLatency
        p95Latency := p95Latency
        errorRate := errorRate }

/-- `runPerformanceTest` as a function of the request outcomes the run
produced: fold them into the counters, then aggregate. -/
def runPerformanceTest (outcomes : List Outcome) : Except String RunStats :=
  aggregate (runCounters outcomes)

/-- Reference (spec-side) nearest-rank median of the latency samples:
the element at index `floor(length / 2)` of the array sorted
ascending. -/
def medianLatency (l : List ℚ) : ℚ :=
  (sortLatencies l).getD (l.length / 2) 0

/-! ## Validity gates (testFramework, lines 744-753) -/

/-- The two validity checks `testFramework` applies to the record
returned by `runPerformanceTest`: it throws when
`testResults.totalRequests < 10` (the field holding the successful
request count) and when `testResults.errorRate > 50`; otherwise the
result is kept. -/
def applyValidityGates (s : RunStats) : Except String RunStats :=
  if s.totalRequests < 10 then .error "too few requests"
  else if 50 < s.errorRate then .error "error rate too high"
  else .ok s

/-- One test attempt's load-generation phase followed by the validity
gates, as `testFramework` performs them. -/
def runGatedTest (outcomes : List Outcome) : Except String RunStats :=
  (runPerformanceTest outcomes).bind applyValidityGates

/-! ## Lemmas about the outcome fold -/

theorem foldl_processOutcome_latencies (os : List Outcome) :
    ∀ c : RunCounters,
      (os.foldl processOutcome c).latencies = c.latencies ++ successLatencies os := by
  induction os with
  | nil => intro c; simp [successLatencies]
  | cons o os ih =>
    intro c
    cases o with
    | ok r =>
      by_cases h : r.success = true <;>
        simp [processOutcome, successLatencies, h, ih, List.filterMap_cons]
    | threw =>
      simp [processOutcome, successLatencies, ih, List.filterMap_cons]

theorem foldl_processOutcome_totalRequests (os : List Outcome) :
    ∀ c : RunCounters,
      (os.foldl processOutcome c).totalRequests = c.totalRequests + os.length := by
  induction os with
  | nil => intro c; simp
  | cons o os ih =>
    intro c
    cases o with
    | ok r =>
      by_cases h : r.success = true <;> simp [processOutcome, h, ih] <;> omega
    | threw => simp [processOutcome, ih]; omega

theorem foldl_processOutcome_split (os : List Outcome) :
    ∀ c : RunCounters,
      c.totalRequests = c.successRequests + c.errorRequests →
      (os.foldl processOutcome c).totalRequests =
        (os.foldl processOutcome c).successRequests +
          (os.foldl processOutcome c).errorRequests := by
  induction os with
  | nil => intro c hc; simpa using hc
  | cons o os ih =>
    intro c hc
    cases o with
    | ok r =>
      by_cases h : r.success = true <;>
        · simp only [List.foldl_cons, processOutcome, h]
          exact ih _ (by simp; omega)
    | threw =>
      simp only [List.foldl_cons, processOutcome]
      exact ih _ (by simp; omega)

theorem runCounters_latencies (os : List Outcome) :
    (runCounters os).latencies = successLatencies os := by
  simpa [runCounters] using foldl_processOutcome_latencies os ⟨0, 0, 0, []⟩

theorem runCounters_split (os : List Outcome) :
    (runCounters os).totalRequests =
      (runCounters os).successRequests + (runCounters os).errorRequests :=
  foldl_processOutcome_split os ⟨0, 0, 0, []⟩ rfl

theorem successLatencies_eq_nil_iff (os : List Outcome) :
    successLatencies os = [] ↔ ∀ o ∈ os, o.isSuccess = false := by
  rw [successLatencies, List.filterMap_eq_nil_iff]
  constructor
  · intro h o ho
    have := h o ho
    cases o with
    | ok r =>
      cases hr : r.success
      · simp [Outcome.isSuccess, hr]
      · simp [hr] at this
    | threw => rfl
  · intro h o ho
    have := h o ho
    cases o with
    | ok r =>
      simp [Outcome.isSuccess] at this
      simp [this]
    | threw => rfl

/-! ## Lemmas about the ascending sort -/

theorem sortLatencies_sorted (l : List ℚ) : List.Sorted (· ≤ ·) (sortLatencies l) :=
  List.sorted_insertionSort _ l

theorem sortLatencies_perm (l : List ℚ) : (sortLatencies l).Perm l :=
  List.perm_insertionSort _ l

theorem sortLatencies_length (l : List ℚ) : (sortLatencies l).length = l.length :=
  (sortLatencies_perm l).length_eq

theorem sortLatencies_sum (l : List ℚ) : (sortLatencies l).sum = l.sum :=
  (sortLatencies_perm l).sum_eq

theorem sortLatencies_mem {x : ℚ} {l : List ℚ} : x ∈ sortLatencies l ↔ x ∈ l :=
  (sortLatencies_perm l).mem_iff

theorem sorted_getD_mono {l : List ℚ} (hs : List.Sorted (· ≤ ·) l) {i j : Nat}
    (hij : i ≤ j) (hj : j < l.length) : l.getD i 0 ≤ l.getD j 0 := by
  have hi : i < l.length := Nat.lt_of_le_of_lt hij hj
  rw [List.getD_eq_getElem l 0 hi, List.getD_eq_getElem l 0 hj]
  have h :=
    hs.rel_get_of_le (show (⟨i, hi⟩ : Fin l.length) ≤ ⟨j, hj⟩ from hij)
  simpa [List.get_eq_getElem] using h

theorem getD_mem_of_lt {l : List ℚ} {i : Nat} (hi : i < l.length) : l.getD i 0 ∈ l := by
  rw [List.getD_eq_getElem l 0 hi]
  exact List.getElem_mem hi

theorem sorted_getD_zero_le {l : List ℚ} (hs : List.Sorted (· ≤ ·) l) {x : ℚ}
    (hx : x ∈ l) : l.getD 0 0 ≤ x := by
  obtain ⟨i, hilt, hi⟩ := List.mem_iff_getElem.mp hx
  have h := sorted_getD_mono hs (Nat.zero_le i) hilt
  rw [List.getD_eq_getElem l 0 hilt] at h
  rwa [hi] at h

theorem sorted_le_getD_last {l : List ℚ} (hs : List.Sorted (· ≤ ·) l) {x : ℚ}
    (hx : x ∈ l) : x ≤ l.getD (l.length - 1) 0 := by
  obtain ⟨i, hilt, hi⟩ := List.mem_iff_getElem.mp hx
  have hj : l.length - 1 < l.length := by omega
  have h := sorted_getD_mono hs (show i ≤ l.length - 1 by omega) hj
  rw [List.getD_eq_getElem l 0 hilt] at h
  rwa [hi] at h

theorem p95Index_lt {n : Nat} (hn : 0 < n) : p95Index n < n := by
  unfold p95Index; omega

theorem div_two_le_p95Index (n : Nat) : n / 2 ≤ p95Index n := by
  unfold p95Index; omega

/-- Characterization of a successful `runPerformanceTest`: it returns
`.ok` exactly on runs with at least one successful latency, and the
returned record is the aggregation of the sorted success-latency
array. -/
theorem runPerformanceTest_ok_iff (os : List Outcome) (s : RunStats) :
    runPerformanceTest os = .ok s ↔
      successLatencies os ≠ [] ∧
      s = { totalRequests := (runCounters os).successRequests
            averageLatency := (sortLatencies (successLatencies os)).sum /
              ((sortLatencies (successLatencies os)).length : ℚ)
            minLatency := (sortLatencies (successLatencies os)).getD 0 0
            maxLatency := (sortLatencies (successLatencies os)).getD
              ((sortLatencies (successLatencies os)).length - 1) 0
            p95Latency := (sortLatencies (successLatencies os)).getD
              (p95Index (successLatencies os).length) 0
            errorRate :=
              if 0 < (runCounters os).totalRequests then
                (((runCounters os).errorRequests : ℚ) /
                  ((runCounters os).totalRequests : ℚ)) * 100
              else 0 } := by
  unfold runPerformanceTest aggregate
  rw [runCounters_latencies]
  by_cases h : (successLatencies os).length = 0
  · simp [List.length_eq_zero.mp h]
  · simp only [if_neg h]
    constructor
    · intro hs
      refine ⟨fun hnil => h (by simp [hnil]), ?_⟩
      cases hs
      rfl
    · rintro ⟨-, rfl⟩
      rfl

theorem sorted_avg_bounds {l : List ℚ} (hne : l ≠ []) (hs : List.Sorted (· ≤ ·) l) :
    l.getD 0 0 ≤ l.sum / (l.length : ℚ) ∧
      l.sum / (l.length : ℚ) ≤ l.getD (l.length - 1) 0 := by
  have hlen : 0 < l.length := List.length_pos.mpr hne
  have hlenQ : (0 : ℚ) < (l.length : ℚ) := by exact_mod_cast hlen
  have hmin : ∀ x ∈ l, l.getD 0 0 ≤ x := fun x hx => sorted_getD_zero_le hs hx
  have hmax : ∀ x ∈ l, x ≤ l.getD (l.length - 1) 0 := fun x hx => sorted_le_getD_last hs hx
  have h1 : l.length • (l.getD 0 0) ≤ l.sum := List.card_nsmul_le_sum l _ hmin
  have h2 : l.sum ≤ l.length • (l.getD (l.length - 1) 0) := List.sum_le_card_nsmul l _ hmax
  rw [nsmul_eq_mul] at h1 h2
  constructor
  · rw [le_div_iff₀ hlenQ]
    linarith
  · rw [div_le_iff₀ hlenQ]
    linarith

theorem runPerformanceTest_error_iff (os : List Outcome) :
    runPerformanceTest os = .error "no successful requests" ↔ successLatencies os = [] := by
  unfold runPerformanceTest aggregate
  rw [runCounters_latencies]
  by_cases h : (successLatencies os).length = 0
  · simp [if_pos h, List.length_eq_zero.mp h]
  · simp only [if_neg h]
    constructor
    · intro hs; cases hs
    · intro hnil; exact absurd (by simp [hnil]) h

/-- Claim C2: a run that records zero successful latencies makes
`runPerformanceTest` raise an error to its caller (it never returns a
metrics record, in particular never one with ill-defined statistic
fields — every division in the success path is over a non-empty sample
set); conversely every run with at least one successful latency returns
a metrics record. -/
theorem runPerformanceTest_error_iff_no_success (outcomes : List Outcome) :
    (runPerformanceTest outcomes = .error "no successful requests" ↔
      ∀ o ∈ outcomes, o.isSuccess = false) ∧
    ((∃ s, runPerformanceTest outcomes = .ok s) ↔ ∃ o ∈ outcomes, o.isSuccess = true) := by
  constructor
  · rw [runPerformanceTest_error_iff, successLatencies_eq_nil_iff]
  · constructor
    · rintro ⟨s, hs⟩
      obtain ⟨hne, -⟩ := (runPerformanceTest_ok_iff outcomes s).mp hs
      by_contra hnone
      push_neg at hnone
      refine hne ((successLatencies_eq_nil_iff outcomes).mpr fun o ho => ?_)
      have := hnone o ho
      cases hos : o.isSuccess
      · rfl
      · exact absurd hos this
    · rintro ⟨o, ho, hsucc⟩
      have hne : successLatencies outcomes ≠ [] := by
        intro hnil
        have := (successLatencies_eq_nil_iff outcomes).mp hnil o ho
        rw [hsucc] at this
        cases this
      exact ⟨_, (runPerformanceTest_ok_iff outcomes _).mpr ⟨hne, rfl⟩⟩

/-- Claim C8: for every run with a non-empty latency sample array, the
summary statistics equal the reference definitions over the array
sorted ascending: min is the sorted element at index 0, max the sorted
element at index len-1, avg the sum of the samples divided by their
count, and p95 the sorted element at the nearest-rank index
floor(len * 0.95), with no interpolation. -/
theorem runPerformanceTest_stats_eq_reference (outcomes : List Outcome) (s : RunStats)
    (h : runPerformanceTest outcomes = .ok s) :
    s.minLatency = (sortLatencies (successLatencies outcomes)).getD 0 0 ∧
    s.maxLatency = (sortLatencies (successLatencies outcomes)).getD
      ((successLatencies outcomes).length - 1) 0 ∧
    s.averageLatency =
      (successLatencies outcomes).sum / ((successLatencies outcomes).length : ℚ) ∧
    s.p95Latency = (sortLatencies (successLatencies outcomes)).getD
      (p95Index (successLatencies outcomes).length) 0 := by
  obtain ⟨hne, rfl⟩ := (runPerformanceTest_ok_iff outcomes s).mp h
  refine ⟨rfl, ?_, ?_, rfl⟩
  · rw [sortLatencies_length]
  · rw [sortLatencies_sum, sortLatencies_length]

/-- A two-request run used to instantiate the aggregation theorems. -/
def osPair : List Outcome := [Outcome.ok ⟨2, true⟩, Outcome.ok ⟨4, true⟩]

/-- The record `runPerformanceTest osPair` evaluates to: both requests
succeed, sorted latencies [2, 4], average 3, p95 index
floor(2 * 0.95) = 1. -/
def statsPair : RunStats :=
  { totalRequests := 2, averageLatency := 3, minLatency := 2, maxLatency := 4
    p95Latency := 4, errorRate := 0 }

theorem runPerformanceTest_stats_eq_reference_witness :
    runPerformanceTest osPair = .ok statsPair ∧
    (statsPair.minLatency = (sortLatencies (successLatencies osPair)).getD 0 0 ∧
     statsPair.maxLatency = (sortLatencies (successLatencies osPair)).getD
       ((successLatencies osPair).length - 1) 0 ∧
     statsPair.averageLatency =
       (successLatencies osPair).sum / ((successLatencies osPair).length : ℚ) ∧
     statsPair.p95Latency = (sortLatencies (successLatencies osPair)).getD
       (p95Index (successLatencies osPair).length) 0) :=
  ⟨by norm_num [runPerformanceTest, aggregate, runCounters, processOutcome, successLatencies,
      sortLatencies, p95Index, osPair, statsPair, List.insertionSort, List.orderedInsert],
   runPerformanceTest_stats_eq_reference osPair statsPair
    (by norm_num [runPerformanceTest, aggregate, runCounters, processOutcome, successLatencies,
      sortLatencies, p95Index, osPair, statsPair, List.insertionSort, List.orderedInsert])⟩

/-- Claim C10: after the zero-sample guard, the aggregation's array
lookups are in bounds — for a non-empty latency array of length len the
p95 index floor(len * 0.95) satisfies 0 ≤ index ≤ len - 1, as do the
min/max lookups at 0 and len - 1 — and the reported p95 (and min and
max) is an actual observed sample. -/
theorem p95_lookup_in_bounds (outcomes : List Outcome) (s : RunStats)
    (h : runPerformanceTest outcomes = .ok s) :
    0 < (successLatencies outcomes).length ∧
    p95Index (successLatencies outcomes).length ≤ (successLatencies outcomes).length - 1 ∧
    s.p95Latency ∈ successLatencies outcomes ∧
    s.minLatency ∈ successLatencies outcomes ∧
    s.maxLatency ∈ successLatencies outcomes := by
  obtain ⟨hne, rfl⟩ := (runPerformanceTest_ok_iff outcomes s).mp h
  have hlen : 0 < (successLatencies outcomes).length := List.length_pos.mpr hne
  have hsortlen := sortLatencies_length (successLatencies outcomes)
  have h95 := p95Index_lt hlen
  refine ⟨hlen, by omega, ?_, ?_, ?_⟩
  · exact sortLatencies_mem.mp (getD_mem_of_lt (by omega))
  · exact sortLatencies_mem.mp (getD_mem_of_lt (by omega))
  · exact sortLatencies_mem.mp (getD_mem_of_lt (by omega))

theorem p95_lookup_in_bounds_witness :
    runPerformanceTest osPair = .ok statsPair ∧
    (0 < (successLatencies osPair).length ∧
     p95Index (successLatencies osPair).length ≤ (successLatencies osPair).length - 1 ∧
     statsPair.p95Latency ∈ successLatencies osPair ∧
     statsPair.minLatency ∈ successLatencies osPair ∧
     statsPair.maxLatency ∈ successLatencies osPair) :=
  ⟨by norm_num [runPerformanceTest, aggregate, runCounters, processOutcome, successLatencies,
      sortLatencies, p95Index, osPair, statsPair, List.insertionSort, List.orderedInsert],
   p95_lookup_in_bounds osPair statsPair
    (by norm_num [runPerformanceTest, aggregate, runCounters, processOutcome, successLatencies,
      sortLatencies, p95Index, osPair, statsPair, List.insertionSort, List.orderedInsert])⟩

/-- Claim C1 (amended): every record returned by a completed
`runPerformanceTest` satisfies minLatency ≤ averageLatency ≤
maxLatency, the p95 latency lies between the (nearest-rank) median and
maxLatency, and errorRate lies in [0, 100].  (The additional
`averageLatency ≤ p95Latency` bound of the original claim is false on
the code; see the counterexample.) -/
theorem performanceMetrics_invariant (outcomes : List Outcome) (s : RunStats)
    (h : runPerformanceTest outcomes = .ok s) :
    s.minLatency ≤ s.averageLatency ∧ s.averageLatency ≤ s.maxLatency ∧
    medianLatency (successLatencies outcomes) ≤ s.p95Latency ∧
    s.p95Latency ≤ s.maxLatency ∧
    0 ≤ s.errorRate ∧ s.errorRate ≤ 100 := by
  have hsplit := runCounters_split outcomes
  obtain ⟨hne, rfl⟩ := (runPerformanceTest_ok_iff outcomes s).mp h
  have hsorted := sortLatencies_sorted (successLatencies outcomes)
  have hsortlen := sortLatencies_length (successLatencies outcomes)
  have hlen : 0 < (successLatencies outcomes).length := List.length_pos.mpr hne
  have hsne : sortLatencies (successLatencies outcomes) ≠ [] := by
    intro hnil
    rw [hnil] at hsortlen
    simp at hsortlen
    omega
  have havg := sorted_avg_bounds hsne hsorted
  have h95 := p95Index_lt hlen
  have hmed := div_two_le_p95Index (successLatencies outcomes).length
  refine ⟨havg.1, havg.2, ?_, ?_, ?_, ?_⟩
  · exact sorted_getD_mono hsorted (by omega) (by omega)
  · exact sorted_getD_mono hsorted (by omega) (by omega)
  · dsimp only
    split
    · positivity
    · exact le_refl 0
  · dsimp only
    split
    · case isTrue ht =>
        have he : (runCounters outcomes).errorRequests ≤ (runCounters outcomes).totalRequests := by
          omega
        have htQ : (0 : ℚ) < ((runCounters outcomes).totalRequests : ℚ) := by
          exact_mod_cast ht
        have hdiv : ((runCounters outcomes).errorRequests : ℚ) /
            ((runCounters outcomes).totalRequests : ℚ) ≤ 1 := by
          rw [div_le_one htQ]
          exact_mod_cast he
        linarith
    · case isFalse => norm_num

theorem performanceMetrics_invariant_witness :
    runPerformanceTest osPair = .ok statsPair ∧
    (statsPair.minLatency ≤ statsPair.averageLatency ∧
     statsPair.averageLatency ≤ statsPair.maxLatency ∧
     medianLatency (successLatencies osPair) ≤ statsPair.p95Latency ∧
     statsPair.p95Latency ≤ statsPair.maxLatency ∧
     0 ≤ statsPair.errorRate ∧ statsPair.errorRate ≤ 100) :=
  ⟨by norm_num [runPerformanceTest, aggregate, runCounters, processOutcome, successLatencies,
      sortLatencies, p95Index, osPair, statsPair, List.insertionSort, List.orderedInsert],
   performanceMetrics_invariant osPair statsPair
    (by norm_num [runPerformanceTest, aggregate, runCounters, processOutcome, successLatencies,
      sortLatencies, p95Index, osPair, statsPair, List.insertionSort, List.orderedInsert])⟩

/-- A run of 21 successful requests: twenty with latency 1 ms and one
with latency 1000 ms.  Sorted ascending, index floor(21 * 0.95) = 19
still holds latency 1, while the average is 1020 / 21 = 340/7 ≈ 48.6,
so averageLatency > p95Latency. -/
def osSkewed : List Outcome :=
  [Outcome.ok ⟨1, true⟩, Outcome.ok ⟨1, true⟩, Outcome.ok ⟨1, true⟩, Outcome.ok ⟨1, true⟩,
   Outcome.ok ⟨1, true⟩, Outcome.ok ⟨1, true⟩, Outcome.ok ⟨1, true⟩, Outcome.ok ⟨1, true⟩,
   Outcome.ok ⟨1, true⟩, Outcome.ok ⟨1, true⟩, Outcome.ok ⟨1, true⟩, Outcome.ok ⟨1, true⟩,
   Outcome.ok ⟨1, true⟩, Outcome.ok ⟨1, true⟩, Outcome.ok ⟨1, true⟩, Outcome.ok ⟨1, true⟩,
   Outcome.ok ⟨1, true⟩, Outcome.ok ⟨1, true⟩, Outcome.ok ⟨1, true⟩, Outcome.ok ⟨1, true⟩,
   Outcome.ok ⟨1000, true⟩]

/-- The record `runPerformanceTest osSkewed` evaluates to. -/
def statsSkewed : RunStats :=
  { totalRequests := 21, averageLatency := 340 / 7, minLatency := 1, maxLatency := 1000
    p95Latency := 1, errorRate := 0 }

/-- The latency array collected by the run `osSkewed`. -/
def latsSkewed : List ℚ :=
  [1, 1, 1, 1, 1, 1, 1, 1, 1, 1, 1, 1, 1, 1, 1, 1, 1, 1, 1, 1, 1000]

/-- Counterexample to claim C1 as stated: a completed run whose
returned record violates `averageLatency ≤ p95Latency`. -/
theorem performanceMetrics_avg_le_p95_fails :
    runPerformanceTest osSkewed = .ok statsSkewed ∧
    ¬ statsSkewed.averageLatency ≤ statsSkewed.p95Latency := by
  constructor
  · have hc : runCounters osSkewed = ⟨21, 21, 0, latsSkewed⟩ := by
      norm_num [runCounters, processOutcome, osSkewed, latsSkewed]
    rw [runPerformanceTest, hc]
    norm_num [aggregate, sortLatencies, p95Index, statsSkewed, latsSkewed,
      List.insertionSort, List.orderedInsert]
  · norm_num [statsSkewed]

/-! ## Readiness polling (startFrameworkServer, lines 187-247) -/

/-- The fixed poll interval: `setTimeout(checkServerReady, 100)`. -/
def readyPollIntervalMs : Nat := 100

/-- The delay before the first readiness check:
`setTimeout(checkServerReady, 1000)`. -/
def initialCheckDelayMs : Nat := 1000

/-- `const maxAttempts = 250` — 25 s total timeout at 100 ms per
attempt. -/
def maxReadyAttempts : Nat := 250

/-- The cold-start time resolved when check number `k` (0-based)
succeeds, under the idealised schedule in which the first check runs
`initialCheckDelayMs` after launch and each retry
`readyPollIntervalMs` later (the source resolves the measured
`performance.now() - coldStartBegin` at that moment). -/
def coldStartElapsed (k : Nat) : ℚ :=
  (initialCheckDelayMs : ℚ) + (k : ℚ) * (readyPollIntervalMs : ℚ)

/-- The `checkServerReady` loop of `startFrameworkServer`: the source
counts `checkAttempts` upward and rejects the promise once
`checkAttempts >= maxAttempts`; here the first argument is the number
of attempts still allowed (`maxAttempts - checkAttempts`), so the
recursion is structural.  A check whose health-check record is
successful resolves the promise with the cold-start time; otherwise the
next check is scheduled `readyPollIntervalMs` later.  On exhaustion the
promise is rejected with a startup-timeout error (the source also
SIGTERMs the spawned process at that point). -/
def checkServerReady (events : Nat → NetEvent) : Nat → Nat → Except String ℚ
  | 0, _ => .error "startup timeout"
  | remaining + 1, checkAttempts =>
      if (sendHealthCheck (events checkAttempts)).success then
        .ok (coldStartElapsed checkAttempts)
      else
        checkServerReady events remaining (checkAttempts + 1)

/-- `startFrameworkServer`'s readiness wait, as a function of the
health-check events the target produces (event `k` answers check `k`). -/
def startFrameworkServer (events : Nat → NetEvent) : Except String ℚ :=
  checkServerReady events maxReadyAttempts 0

theorem checkServerReady_eq_find (events : Nat → NetEvent) :
    ∀ (remaining checkAttempts : Nat),
      checkServerReady events remaining checkAttempts =
        match (List.range' checkAttempts remaining).find?
            (fun k => (sendHealthCheck (events k)).success) with
        | none => .error "startup timeout"
        | some k => .ok (coldStartElapsed k) := by
  intro remaining
  induction remaining with
  | zero => intro a; simp [checkServerReady]
  | succ n ih =>
    intro a
    rw [checkServerReady]
    by_cases h : (sendHealthCheck (events a)).success
    · simp [List.range'_succ, h]
    · simp [List.range'_succ, h, ih]

/-- Claim C3 (amended): the readiness wait polls the health check at a
fixed 100 ms interval until a response with status in [200,499] is
observed (the success condition of `sendHealthCheck`) or 250 attempts
(~25 s) are exhausted, and on timeout it rejects with an error to the
caller — it does not return false. -/
theorem startFrameworkServer_poll_spec (events : Nat → NetEvent) :
    readyPollIntervalMs = 100 ∧ maxReadyAttempts = 250 ∧
    startFrameworkServer events =
      match (List.range maxReadyAttempts).find?
          (fun k => (sendHealthCheck (events k)).success) with
      | none => .error "startup timeout"
      | some k => .ok (coldStartElapsed k) := by
  refine ⟨rfl, rfl, ?_⟩
  rw [startFrameworkServer, checkServerReady_eq_find, List.range_eq_range']

/-- A target that never starts listening: every health check ends in a
connection error. -/
def neverUpEvents : Nat → NetEvent := fun _ => NetEvent.connError 1

/-- Counterexample to claim C3 as stated: with a target that never
answers, the readiness wait times out and rejects with an error (the
promise fails, propagating an exception to the caller); there is no
false-returning path. -/
theorem startFrameworkServer_timeout_raises :
    startFrameworkServer neverUpEvents = .error "startup timeout" := by
  rw [startFrameworkServer, checkServerReady_eq_find]
  have hnone : (List.range' 0 maxReadyAttempts).find?
      (fun k => (sendHealthCheck (neverUpEvents k)).success) = none :=
    List.find?_eq_none.mpr fun x _ => by simp [neverUpEvents, sendHealthCheck]
  rw [hnone]

/-! ## Validity gates: claim C4 -/

/-- A run of 12 requests of which 9 succeed (latency 1 ms each) and 3
fail: 12 total requests, error rate 25%. -/
def osGate : List Outcome :=
  [Outcome.ok ⟨1, true⟩, Outcome.ok ⟨1, true⟩, Outcome.ok ⟨1, true⟩,
   Outcome.ok ⟨1, true⟩, Outcome.ok ⟨1, true⟩, Outcome.ok ⟨1, true⟩,
   Outcome.ok ⟨1, true⟩, Outcome.ok ⟨1, true⟩, Outcome.ok ⟨1, true⟩,
   Outcome.ok ⟨1, false⟩, Outcome.ok ⟨1, false⟩, Outcome.ok ⟨1, false⟩]

/-- The record `runPerformanceTest osGate` evaluates to: 9 successful
requests, error rate 3/12 * 100 = 25. -/
def statsGate : RunStats :=
  { totalRequests := 9, averageLatency := 1, minLatency := 1, maxLatency := 1
    p95Latency := 1, errorRate := 25 }

/-- Counterexample to claim C4 as stated: a run whose total request
count (12) exceeds the floor of 10 and whose error rate (25%) is under
the 50% ceiling, yet the gates discard it — the first gate compares the
*successful*-request count (the returned record's totalRequests field,
here 9) against 10, not the total number of requests. -/
theorem validityGates_counterexample :
    (runCounters osGate).totalRequests = 12 ∧
    runPerformanceTest osGate = .ok statsGate ∧
    statsGate.errorRate < 50 ∧
    runGatedTest osGate = .error "too few requests" := by
  have hc : runCounters osGate = ⟨12, 9, 3, [1, 1, 1, 1, 1, 1, 1, 1, 1]⟩ := by
    norm_num [runCounters, processOutcome, osGate]
  have hperf : runPerformanceTest osGate = .ok statsGate := by
    rw [runPerformanceTest, hc]
    norm_num [aggregate, sortLatencies, p95Index, statsGate,
      List.insertionSort, List.orderedInsert]
  refine ⟨by rw [hc], hperf, by norm_num [statsGate], ?_⟩
  rw [runGatedTest, hperf]
  norm_num [Except.bind, applyValidityGates, statsGate]

/-- Claim C4 (amended): after load generation the result is reported
iff the successful-request count (the value the run returns in its
totalRequests field) is at least 10 and the error rate is at most 50%;
otherwise the attempt fails with an error instead of reporting the
result. -/
theorem validityGates_spec (outcomes : List Outcome) (s : RunStats)
    (h : runPerformanceTest outcomes = .ok s) :
    (runGatedTest outcomes = .ok s ↔ 10 ≤ s.totalRequests ∧ s.errorRate ≤ 50) ∧
    (¬ (10 ≤ s.totalRequests ∧ s.errorRate ≤ 50) →
      ∃ msg, runGatedTest outcomes = .error msg) := by
  rw [runGatedTest, h]
  simp only [Except.bind]
  unfold applyValidityGates
  by_cases h1 : s.totalRequests < 10
  · rw [if_pos h1]
    constructor
    · constructor
      · intro hx; cases hx
      · rintro ⟨ha, -⟩; omega
    · intro _; exact ⟨_, rfl⟩
  · rw [if_neg h1]
    by_cases h2 : 50 < s.errorRate
    · rw [if_pos h2]
      constructor
      · constructor
        · intro hx; cases hx
        · rintro ⟨-, hb⟩; linarith
      · intro _; exact ⟨_, rfl⟩
    · rw [if_neg h2]
      constructor
      · constructor
        · intro _; exact ⟨by omega, by linarith⟩
        · intro _; rfl
      · intro hcon
        exact absurd ⟨by omega, by linarith⟩ hcon

/-- A run of exactly 10 successful requests, passing both gates. -/
def osTen : List Outcome :=
  [Outcome.ok ⟨1, true⟩, Outcome.ok ⟨1, true⟩, Outcome.ok ⟨1, true⟩,
   Outcome.ok ⟨1, true⟩, Outcome.ok ⟨1, true⟩, Outcome.ok ⟨1, true⟩,
   Outcome.ok ⟨1, true⟩, Outcome.ok ⟨1, true⟩, Outcome.ok ⟨1, true⟩,
   Outcome.ok ⟨1, true⟩]

/-- The record `runPerformanceTest osTen` evaluates to. -/
def statsTen : RunStats :=
  { totalRequests := 10, averageLatency := 1, minLatency := 1, maxLatency := 1
    p95Latency := 1, errorRate := 0 }

theorem runPerformanceTest_osTen : runPerformanceTest osTen = .ok statsTen := by
  have hc : runCounters osTen = ⟨10, 10, 0, [1, 1, 1, 1, 1, 1, 1, 1, 1, 1]⟩ := by
    norm_num [runCounters, processOutcome, osTen]
  rw [runPerformanceTest, hc]
  norm_num [aggregate, sortLatencies, p95Index, statsTen,
    List.insertionSort, List.orderedInsert]

theorem validityGates_spec_witness :
    runPerformanceTest osTen = .ok statsTen ∧
    ((runGatedTest osTen = .ok statsTen ↔
        10 ≤ statsTen.totalRequests ∧ statsTen.errorRate ≤ 50) ∧
     (¬ (10 ≤ statsTen.totalRequests ∧ statsTen.errorRate ≤ 50) →
        ∃ msg, runGatedTest osTen = .error msg)) :=
  ⟨runPerformanceTest_osTen, validityGates_spec osTen statsTen runPerformanceTest_osTen⟩

/-! ## Orchestrator: testFramework retries and manual-start mode
(universal-framework-tester.ts lines 670-795 and 819-842) -/

/-- The metrics record `testFramework` assembles on success, restricted
to the fields determined by the attempt itself: the cold-start time and
the gated run statistics.  (`requestsPerSecond`, `testDuration` and
`memoryUsage` are wall-clock / process-environment readings outside the
model.) -/
structure PerformanceMetrics where
  coldStartTime : ℚ
  stats : RunStats
deriving DecidableEq, Repr

/-- The environment one attempt runs against: what
`startFrameworkServer` would yield in automatic mode (cold-start time
or a rejection), the health-check event observed in manual mode, and
the request outcomes of the load-generation phase. -/
structure AttemptEnv where
  startResult : Except String ℚ
  manualHealthEvent : NetEvent
  outcomes : List Outcome

/-- One attempt of `testFramework`'s retry loop, also reporting whether
the attempt started (spawned) the target process.  With
`manualStart = true` the attempt skips the spawn, health-checks the
already-running service (throwing if the check fails), uses cold-start
time 0 and runs the gated test; with `manualStart = false` it starts
the process (measuring cold start, propagating a startup failure) and
runs the gated test. -/
def runAttempt (manualStart : Bool) (env : AttemptEnv) :
    Except String PerformanceMetrics × Bool :=
  if manualStart then
    if (sendHealthCheck env.manualHealthEvent).success then
      ((runGatedTest env.outcomes).map fun s => ⟨0, s⟩, false)
    else
      (.error "service unavailable", false)
  else
    match env.startResult with
    | .error e => (.error e, true)
    | .ok coldStartTime => ((runGatedTest env.outcomes).map fun s => ⟨coldStartTime, s⟩, true)

/-- The retry loop `for (let attempt = 1; attempt <= maxRetries;
attempt++)`: the first argument below is the current attempt number,
the second the number of attempts still allowed.  The loop returns the
first successful attempt's metrics, or `none` when every attempt
failed; the accompanying Bool records whether any attempt started a
process. -/
def testFrameworkGo (manualStart : Bool) (envs : Nat → AttemptEnv) :
    Nat → Nat → Option PerformanceMetrics × Bool
  | _, 0 => (none, false)
  | attempt, remaining + 1 =>
      match runAttempt manualStart (envs attempt) with
      | (.ok m, started) => (some m, started)
      | (.error _, started) =>
          let next := testFrameworkGo manualStart envs (attempt + 1) remaining
          (next.1, started || next.2)

/-- `testFramework frameworkName testDuration maxRetries manualStart`,
as a function of its `maxRetries` and `manualStart` parameters and the
per-attempt environments. -/
def testFramework (maxRetries : Nat) (manualStart : Bool) (envs : Nat → AttemptEnv) :
    Option PerformanceMetrics × Bool :=
  testFrameworkGo manualStart envs 1 maxRetries

/-- How JavaScript coerces a boolean that ends up in the numeric
`maxRetries` position: the loop guard `attempt <= maxRetries` converts
`true` to 1 and `false` to 0. -/
def booleanAsLoopBound (b : Bool) : Nat := if b then 1 else 0

/-- The call `this.testFramework(config.name, testDuration, manualStart)`
made by `testAllFrameworks` (line 824): `testFramework`'s signature is
`(frameworkName, testDuration, maxRetries, manualStart)`, so the
`manualStart` argument of `testAllFrameworks` is passed in the
`maxRetries` position (coerced by the loop comparison) and the real
`manualStart` parameter takes its default value `false`. -/
def testAllFrameworksCall (manualStart : Bool) (envs : Nat → AttemptEnv) :
    Option PerformanceMetrics × Bool :=
  testFramework (booleanAsLoopBound manualStart) false envs

/-- An environment in which automatic start succeeds with a measured
cold start of 123 ms, the manual-mode health check answers 200, and the
load run is `osTen` (which passes the validity gates). -/
def envGood : AttemptEnv :=
  { startResult := .ok 123, manualHealthEvent := NetEvent.response 200 1, outcomes := osTen }

theorem runGatedTest_osTen : runGatedTest osTen = .ok statsTen := by
  rw [runGatedTest, runPerformanceTest_osTen]
  norm_num [Except.bind, applyValidityGates, statsTen]

/-- Claim C5 (code bug): when manual-start mode is requested through
the orchestrator (`testAllFrameworks`), the mode is lost — the
argument-position slip makes the attempt run in automatic mode, so the
target process is started (Bool `true`) and the reported cold-start
time is the measured 123 ms rather than 0.  A direct
`testFramework _ true _` call behaves as the claim describes: no
process start and cold-start time exactly 0. -/
theorem manualStart_mode_is_lost :
    testAllFrameworksCall true (fun _ => envGood) =
      (some { coldStartTime := 123, stats := statsTen }, true) ∧
    testFramework 2 true (fun _ => envGood) =
      (some { coldStartTime := 0, stats := statsTen }, false) := by
  constructor
  · rw [testAllFrameworksCall, booleanAsLoopBound]
    simp [testFramework, testFrameworkGo, runAttempt, envGood, runGatedTest_osTen, Except.map]
  · simp [testFramework, testFrameworkGo, runAttempt, envGood, runGatedTest_osTen, Except.map,
      sendHealthCheck]

/-! ## Process teardown (stopAllServers, lines 494-555): claim C9 -/

/-- The state the source reads from a child-process handle:
`process.killed`, which Node sets to true once a kill signal has been
delivered to the process. -/
structure ProcessHandle where
  killed : Bool
deriving DecidableEq, Repr

/-- The per-process body of `stopAllServers`: an already-killed handle
is skipped outright (`if (!process || process.killed) return`); a live
one is sent SIGTERM (which sets `killed`), and if the 5 s grace period
expires without an exit event the code would escalate with SIGKILL —
but only under `if (!process.killed)`, which is false once SIGTERM was
delivered.  `gracefulExit` says whether the process exited within the
grace period.  Returns the final handle state and the list of signals
sent. -/
def stopProcess (h : ProcessHandle) (gracefulExit : Bool) :
    ProcessHandle × List String :=
  if h.killed then (h, [])
  else
    let h1 : ProcessHandle := { killed := true }
    if gracefulExit then (h1, ["SIGTERM"])
    else if h1.killed then (h1, ["SIGTERM"]) else (h1, ["SIGTERM", "SIGKILL"])

/-- `stopAllServers`: stops every tracked process, then clears the
handle map (`this.serverProcesses.clear()`).  Returns the new (empty)
handle map and the log of `(name, signal)` pairs sent. -/
def stopAllServers (procs : List (String × ProcessHandle))
    (gracefulExit : String → Bool) :
    List (String × ProcessHandle) × List (String × String) :=
  (([] : List (String × ProcessHandle)),
    procs.foldr
      (fun nh acc =>
        ((stopProcess nh.2 (gracefulExit nh.1)).2.map fun s => (nh.1, s)) ++ acc)
      [])

/-- Claim C9: stopping is idempotent — stop on an already-stopped
handle sends no further kill signal and leaves the handle unchanged
(and, being a total function, raises no error), and a second
`stopAllServers` call after the first cleared the handle map sends no
signals at all. -/
theorem stop_idempotent (procs : List (String × ProcessHandle))
    (g1 g2 : String → Bool) (h : ProcessHandle) (g : Bool)
    (hk : h.killed = true) :
    stopProcess h g = (h, []) ∧
    stopAllServers (stopAllServers procs g1).1 g2 = ([], []) := by
  constructor
  · simp [stopProcess, hk]
  · rfl

theorem stop_idempotent_witness :
    stopProcess { killed := true } false = ({ killed := true }, []) ∧
    stopAllServers
        (stopAllServers [("elysia", { killed := false })] (fun _ => true)).1
        (fun _ => true) = ([], []) :=
  stop_idempotent [("elysia", { killed := false })] (fun _ => true) (fun _ => true)
    { killed := true } false rfl

end VafastBench
